import Mathlib

/-!
Verification development for the nitro local development-environment manager.

This file gives a shallow embedding of the reconciliation and provisioning
engine (site-container reconciler, proxy bootstrapper, resource reconciler,
composer task runner) and proves or refutes the specified properties.

The container runtime is modelled as an explicit state (`DockerState`) and
every runtime API call performed by the engine is recorded in a trace of
`Op` values, so that "issues zero create/stop/remove operations" becomes a
statement about the trace.

Conventions of the embedding:
- machine strings are Lean `String`s, container ids are `Nat` drawn from a
  fresh-id counter in the state (the runtime never reuses an id);
- fallible steps return `Except String`;
- a Go `map` literal is embedded as the association list of its entries in
  insertion order; a `for range` loop over the map is embedded by passing the
  iteration order explicitly, constrained to be a permutation of the entries
  (Go's map iteration order is unspecified).
-/

set_option maxRecDepth 4000

/-- Identity-label keys (values for `host`/`environment`/`proxy` are taken from
`pkg/client/ls.go`, which queries `com.craftcms.nitro.environment`,
`com.craftcms.nitro.host` and `com.craftcms.nitro.proxy`). -/
def labelNitro : String := "com.craftcms.nitro"

def labelHost : String := "com.craftcms.nitro.host"

def labelEnvironment : String := "com.craftcms.nitro.environment"

def labelNetwork : String := "com.craftcms.nitro.network"

def labelVolume : String := "com.craftcms.nitro.volume"

def labelProxy : String := "com.craftcms.nitro.proxy"

def labelType : String := "com.craftcms.nitro.type"

def labelPath : String := "com.craftcms.nitro.path"

/-- One runtime API call issued by the engine (`docker client` calls in the
Go sources).  `containerCreate` records the new id, the image reference and
the mount source (bind path for sites, volume name for composer tasks). -/
inductive Op where
  | containerList : Op
  | containerInspect (id : Nat) : Op
  | containerCreate (id : Nat) (image : String) (mountSource : String) : Op
  | containerStart (id : Nat) : Op
  | containerStop (id : Nat) : Op
  | containerRemove (id : Nat) : Op
  | containerAttach (id : Nat) : Op
  | copyToContainer (id : Nat) : Op
  | execCreate (id : Nat) (cmd : List String) : Op
  | execAttach : Op
  | execStart : Op
  | execInspect : Op
  | imageList : Op
  | imagePull (ref : String) : Op
  | networkList : Op
  | networkCreate (name : String) (labels : List (String × String)) : Op
  | volumeList : Op
  | volumeCreate (name : String) (labels : List (String × String)) : Op
  deriving DecidableEq, Repr

/-- A container as observed through the runtime (list + inspect merged):
`ContainerRecord` of the spec's data model. -/
structure ContainerRecord where
  id : Nat
  image : String
  env : List String
  mountSource : String
  extraHosts : List String
  labels : List (String × String)
  name : String
  state : String
  deriving DecidableEq, Repr

/-- A named volume with its labels (`types.Volume`). -/
structure VolumeRec where
  name : String
  labels : List (String × String)
  deriving DecidableEq, Repr

/-- The zero value of Go's `types.Volume`. -/
def zeroVolume : VolumeRec := ⟨"", []⟩

/-- The runtime's state: containers, volumes, locally present image
references, and a fresh-id counter (the runtime assigns each created
container an id never used before). -/
structure DockerState where
  containers : List ContainerRecord
  volumes : List VolumeRec
  images : List String
  nextId : Nat
  deriving DecidableEq, Repr

deriving instance DecidableEq for Except

/-- Result of running one engine entry point: the final runtime state, the
trace of runtime calls issued, and the returned id or error. -/
structure RunResult where
  state : DockerState
  trace : List Op
  result : Except String Nat
  deriving DecidableEq, Repr

/-- `ContainerStart`: the runtime marks the container running. -/
def startContainer (cid : Nat) (st : DockerState) : DockerState :=
  { st with containers :=
      st.containers.map fun c => if c.id = cid then { c with state := "running" } else c }

/-- `ContainerStop`: the runtime marks the container exited. -/
def stopContainer (cid : Nat) (st : DockerState) : DockerState :=
  { st with containers :=
      st.containers.map fun c => if c.id = cid then { c with state := "exited" } else c }

/-- `ContainerRemove`: the runtime deletes the container. -/
def removeContainer (cid : Nat) (st : DockerState) : DockerState :=
  { st with containers := st.containers.filter fun c => c.id ≠ cid }

/-- The container create/stop/remove calls of a trace, in order (the
operations the idempotence and rebuild properties count). -/
def mutatingOps (tr : List Op) : List Op :=
  tr.filter fun op =>
    match op with
    | .containerCreate _ _ _ => true
    | .containerStop _ => true
    | .containerRemove _ => true
    | _ => false

/-- The command lines of the exec sessions created in a trace, in order. -/
def execCmds (tr : List Op) : List (List String) :=
  tr.filterMap fun op =>
    match op with
    | .execCreate _ cmd => some cmd
    | _ => none

namespace Composer

/-- ASCII lower-casing of one character (`strings.ToLower` restricted to the
ASCII range, which covers every character the engine feeds it). -/
def lowerChar (c : Char) : Char :=
  if 'A' ≤ c ∧ c ≤ 'Z' then Char.ofNat (c.toNat + 32) else c

/-- `strings.Replace(s, string(old), string(new), -1)` for one-character
patterns: replace every occurrence. -/
def replaceChar (old new : Char) (l : List Char) : List Char :=
  l.map fun c => if c == old then new else c

/-- The cache-volume name computation `name(path, version)` of the composer
command.  `sep` is `os.PathSeparator` of the platform the binary was built
for ('/' on Unix, '\\' on Windows). -/
def name (sep : Char) (path version : String) : String :=
  -- fmt.Sprintf("%s_%s_%s", path, "composer", version)
  let n : List Char := path.data ++ ("_composer_" : String).data ++ version.data
  -- strings.ToLower
  let n := n.map lowerChar
  -- strings.Replace(n, string(os.PathSeparator), "_", -1)
  let n := replaceChar sep '_' n
  -- strings.Replace(n, ":", "_", -1)
  let n := replaceChar ':' '_' n
  -- strings.TrimLeft(n, "_")
  ⟨n.dropWhile (· == '_')⟩

/-- Two character lists agree position-wise up to interchanging the path
separator and ':' (the two characters `name` normalizes to '_'). -/
def sepAligned (sep : Char) : List Char → List Char → Bool
  | [], [] => true
  | c₁ :: t₁, c₂ :: t₂ =>
    (c₁ == c₂ || ((c₁ == sep || c₁ == ':') && (c₂ == sep || c₂ == ':'))) &&
      sepAligned sep t₁ t₂
  | _, _ => false

end Composer

namespace Composer

/-- Characters aligned by `sepAligned` normalize to the same character, when
the separator is untouched by lower-casing. -/
theorem normChar_eq_of_aligned (sep : Char) (hsep : lowerChar sep = sep)
    (c₁ c₂ : Char)
    (h : (c₁ == c₂ || ((c₁ == sep || c₁ == ':') && (c₂ == sep || c₂ == ':'))) = true) :
    (if (if lowerChar c₁ == sep then '_' else lowerChar c₁) == ':' then '_'
     else if lowerChar c₁ == sep then '_' else lowerChar c₁) =
    (if (if lowerChar c₂ == sep then '_' else lowerChar c₂) == ':' then '_'
     else if lowerChar c₂ == sep then '_' else lowerChar c₂) := by
  simp only [Bool.or_eq_true, Bool.and_eq_true, beq_iff_eq] at h
  rcases h with h | ⟨h₁, h₂⟩
  · subst h
    rfl
  · have norm : ∀ c : Char, c = sep ∨ c = ':' →
        (if (if lowerChar c == sep then '_' else lowerChar c) == ':' then '_'
         else if lowerChar c == sep then '_' else lowerChar c) = '_' := by
      intro c hc
      rcases hc with hc | hc
      · subst hc
        simp [hsep]
      · subst hc
        by_cases hcolon : lowerChar ':' == sep
        · simp [hcolon]
        · simp only [Bool.not_eq_true] at hcolon
          simp [hcolon, show lowerChar ':' = ':' from rfl]
    rw [norm c₁ h₁, norm c₂ h₂]

/-- Lists aligned by `sepAligned` have the same image under the full
lower-case/replace-separator/replace-colon normalization. -/
theorem aligned_norm_eq (sep : Char) (hsep : lowerChar sep = sep) :
    ∀ l₁ l₂ : List Char, sepAligned sep l₁ l₂ = true →
      replaceChar ':' '_' (replaceChar sep '_' (l₁.map lowerChar)) =
      replaceChar ':' '_' (replaceChar sep '_' (l₂.map lowerChar)) := by
  intro l₁
  induction l₁ with
  | nil =>
    intro l₂ h
    cases l₂ with
    | nil => rfl
    | cons c t => simp [sepAligned] at h
  | cons c₁ t₁ ih =>
    intro l₂ h
    cases l₂ with
    | nil => simp [sepAligned] at h
    | cons c₂ t₂ =>
      simp only [sepAligned, Bool.and_eq_true] at h
      simp only [List.map_cons, replaceChar, List.map]
      have hd := normChar_eq_of_aligned sep hsep c₁ c₂ h.1
      have tl := ih t₂ h.2
      simp only [replaceChar, List.map_map] at tl ⊢
      rw [hd, tl]

end Composer

/-- Prefixing the input with one separator character adds one leading
underscore to the normalized list, which the trim step removes again. -/
theorem Composer.norm_cons_sep (sep : Char) (hsep : Composer.lowerChar sep = sep)
    (l : List Char) :
    List.dropWhile (· == '_')
      (Composer.replaceChar ':' '_'
        (Composer.replaceChar sep '_' ((sep :: l).map Composer.lowerChar))) =
    List.dropWhile (· == '_')
      (Composer.replaceChar ':' '_'
        (Composer.replaceChar sep '_' (l.map Composer.lowerChar))) := by
  simp only [List.map_cons, hsep, Composer.replaceChar, beq_self_eq_true, if_true]
  simp [List.dropWhile_cons]

/-- C7 (counterexample): `/a/b` and `/a//b` denote the same logical path and
differ only in path-separator characters, yet the cache-volume name
computation maps them to different identities ("a_b_composer_2" versus
"a__b_composer_2"), because each separator is replaced one-for-one by '_'
and only leading underscores are trimmed. -/
theorem Composer.name_separator_counterexample :
    ¬ (Composer.name '/' "/a//b" "2" = Composer.name '/' "/a/b" "2") := by
  decide

/-- C7 (amended): the cache-volume name computation is a pure function of
(path, tool, version) — the identity is lower-cased, with occurrences of the
platform path separator and ':' replaced by '_' and leading underscores
trimmed.  Two path representations are guaranteed to normalize to the same
identity when they agree position-wise up to interchanging the platform
separator and ':' (first conjunct), and prepending a leading separator also
leaves the identity unchanged, since the trim removes the resulting leading
underscore (second conjunct).  Beyond these two cases there is no guarantee:
the counterexample shows the interior-separator representations `/a/b` and
`/a//b` of the same logical path normalize differently. -/
theorem Composer.name_of_sepAligned (sep : Char) (p₁ p₂ version : String)
    (hsep : Composer.lowerChar sep = sep)
    (h : Composer.sepAligned sep p₁.data p₂.data = true) :
    Composer.name sep p₁ version = Composer.name sep p₂ version ∧
    Composer.name sep ⟨sep :: p₁.data⟩ version = Composer.name sep p₁ version := by
  constructor
  · unfold Composer.name
    have key := Composer.aligned_norm_eq sep hsep p₁.data p₂.data h
    simp only [List.map_append]
    simp only [Composer.replaceChar, List.map_map, List.map_append] at key ⊢
    rw [key]
  · simp only [Composer.name]
    congr 1
    simp only [List.cons_append]
    exact Composer.norm_cons_sep sep hsep _

/-- C7 (witness): the amended normalization law applied at `/aa/bb` versus
`:aa:bb` with the Unix separator, and the leading-separator trim at
`//aa/bb` versus `/aa/bb`. -/
theorem Composer.name_of_sepAligned_witness :
    Composer.lowerChar '/' = '/' ∧
      Composer.sepAligned '/' "/aa/bb".data ":aa:bb".data = true ∧
      (Composer.name '/' "/aa/bb" "2" = Composer.name '/' ":aa:bb" "2" ∧
       Composer.name '/' "//aa/bb" "2" = Composer.name '/' "/aa/bb" "2") :=
  ⟨by decide, by decide,
    Composer.name_of_sepAligned '/' "/aa/bb" ":aa:bb" "2" (by decide) (by decide)⟩

namespace Bootstrap

/-- `nat.NewPort("tcp", s)` restricted to single-port strings: the empty
string parses to 0, a decimal number to itself, anything non-numeric is an
error.  (The Go zero value of `nat.Port` is `""`, whose numeric value is 0.) -/
def natNewPort (s : String) : Except String Nat :=
  if s.data.all Char.isDigit then
    Except.ok (s.data.foldl (fun n c => n * 10 + (c.toNat - 48)) 0)
  else Except.error ("Invalid containerPort: " ++ s)

/-- The HTTP-role resolution block of the proxy bootstrap: an unset override
falls back to the default, and the parse error is checked in both branches. -/
def resolveChecked (override default : String) : Except String Nat :=
  if override == "" then natNewPort default else natNewPort override

/-- The HTTPS/API/XDEBUG-role resolution blocks of the proxy bootstrap: an
unset override falls back to the default with its error checked, but in the
override branch the parse error is assigned to the blank identifier and the
subsequent error check reads the stale (nil) error from the preceding block,
so a failed parse leaves the zero `nat.Port` value (numeric value 0) and
resolution continues. -/
def resolveUnchecked (override default : String) : Except String Nat :=
  if override == "" then natNewPort default
  else
    Except.ok
      (match natNewPort override with
        | Except.ok n => n
        | Except.error _ => 0)

/-- The port-role resolution sequence of the proxy bootstrap (lines 195-259
of the init command), fed the values of the four `NITRO_*_PORT` environment
variables ("" when unset). -/
def resolvePorts (eHttp eHttps eApi eXdebug : String) :
    Except String (Nat × Nat × Nat × Nat) := do
  let httpPort ← resolveChecked eHttp "80"
  let httpsPort ← resolveUnchecked eHttps "443"
  let apiPort ← resolveUnchecked eApi "5000"
  let xdebugPort ← resolveUnchecked eXdebug "9003"
  return (httpPort, httpsPort, apiPort, xdebugPort)

/-- The `PortBindings` map of the proxy container create call: each resolved
container port is bound to 127.0.0.1 at a string-literal host port
("80"/"443"/"5000"/"9003" are hard-coded in the source). -/
def proxyPortBindings (p : Nat × Nat × Nat × Nat) : List (Nat × String × String) :=
  [(p.1, "127.0.0.1", "80"),
   (p.2.1, "127.0.0.1", "443"),
   (p.2.2.1, "127.0.0.1", "5000"),
   (p.2.2.2, "127.0.0.1", "9003")]

/-- The exposed-ports and port-bindings configuration the bootstrap hands to
the proxy container create call, produced only when port resolution
succeeds. -/
def proxyCreateConfig (eHttp eHttps eApi eXdebug : String) :
    Except String (List Nat × List (Nat × String × String)) := do
  let p ← resolvePorts eHttp eHttps eApi eXdebug
  return ([p.1, p.2.1, p.2.2.1, p.2.2.2], proxyPortBindings p)

/-- The exact-match loop over the fuzzy network query results: the loop
keeps the id of the last result whose name equals the environment name. -/
def selectNetwork (env : String) (networks : List (String × String)) : Bool × String :=
  networks.foldl (fun acc n => if n.1 == env then (true, n.2) else acc) (false, "")

/-- The network create-if-absent step of the bootstrap: reuse the exact
match's id, otherwise create the network named after the environment with
identity labels; `newId` models the id the runtime assigns on creation. -/
def ensureNetwork (env : String) (networks : List (String × String)) (newId : String) :
    String × List Op :=
  let sel := selectNetwork env networks
  if sel.1 then (sel.2, [])
  else (newId, [Op.networkCreate env [(labelEnvironment, env), (labelNetwork, env)]])

/-- The exact-match loop over the fuzzy volume query results: the loop keeps
the last result whose name equals the environment name. -/
def selectVolume (env : String) (vols : List VolumeRec) : Bool × VolumeRec :=
  vols.foldl (fun acc v => if v.name == env then (true, v) else acc) (false, zeroVolume)

/-- The volume create-if-absent step of the bootstrap: reuse the exact
match, otherwise create a volume named after the environment with identity
labels. -/
def ensureVolume (env : String) (vols : List VolumeRec) : VolumeRec × List Op :=
  let sel := selectVolume env vols
  if sel.1 then (sel.2, [])
  else
    (⟨env, [(labelEnvironment, env), (labelVolume, env)]⟩,
     [Op.volumeCreate env [(labelEnvironment, env), (labelVolume, env)]])

end Bootstrap

namespace Bootstrap

/-- The exact-match fold leaves its accumulator untouched when no result's
key equals the environment name. -/
theorem foldl_select_of_no_match {α β : Type} (key : α → String) (out : α → β)
    (env : String) :
    ∀ (l : List α) (acc : Bool × β), (∀ x ∈ l, key x ≠ env) →
      l.foldl (fun acc x => if key x == env then (true, out x) else acc) acc = acc := by
  intro l
  induction l with
  | nil => intro acc _; rfl
  | cons x t ih =>
    intro acc h
    have hx : key x ≠ env := h x (List.mem_cons_self x t)
    have ht : ∀ y ∈ t, key y ≠ env := fun y hy => h y (List.mem_cons_of_mem x hy)
    rw [List.foldl_cons, if_neg (show ¬((key x == env) = true) by simpa using hx)]
    exact ih acc ht

/-- The exact-match fold returns the projection of some exactly matching
result when one exists. -/
theorem foldl_select_of_match {α β : Type} (key : α → String) (out : α → β)
    (env : String) :
    ∀ (l : List α) (acc : Bool × β), (∃ x ∈ l, key x = env) →
      ∃ x ∈ l, key x = env ∧
        l.foldl (fun acc x => if key x == env then (true, out x) else acc) acc =
          (true, out x) := by
  intro l
  induction l with
  | nil => intro acc h; simp at h
  | cons x t ih =>
    intro acc h
    by_cases ht : ∃ y ∈ t, key y = env
    · obtain ⟨y, hy, hkey, hfold⟩ :=
        ih (if key x == env then (true, out x) else acc) ht
      refine ⟨y, List.mem_cons_of_mem x hy, hkey, ?_⟩
      rw [List.foldl_cons]
      exact hfold
    · have hx : key x = env := by
        obtain ⟨z, hz, hkeyz⟩ := h
        rcases List.mem_cons.mp hz with hz | hz
        · exact hz ▸ hkeyz
        · exact absurd ⟨z, hz, hkeyz⟩ ht
      refine ⟨x, List.mem_cons_self x t, hx, ?_⟩
      have hnt : ∀ y ∈ t, key y ≠ env := by
        intro y hy hkeyy
        exact ht ⟨y, hy, hkeyy⟩
      rw [List.foldl_cons, if_pos (show (key x == env) = true by simpa using hx)]
      exact foldl_select_of_no_match key out env t (true, out x) hnt

end Bootstrap

/-- C4: the resource reconciler accepts only an exactly matching name from
the fuzzy query results — for both networks and volumes, if no result's name
string-equals the environment name the resource is created with identity
labels and the fresh id returned, and when an exact match exists its id is
reused with no create call issued. -/
theorem Bootstrap.ensure_exact_match (env : String)
    (networks : List (String × String)) (vols : List VolumeRec) (newId : String) :
    ((∀ n ∈ networks, n.1 ≠ env) →
      Bootstrap.ensureNetwork env networks newId =
        (newId, [Op.networkCreate env [(labelEnvironment, env), (labelNetwork, env)]])) ∧
    ((∃ n ∈ networks, n.1 = env) →
      ∃ n ∈ networks, n.1 = env ∧
        Bootstrap.ensureNetwork env networks newId = (n.2, [])) ∧
    ((∀ v ∈ vols, v.name ≠ env) →
      Bootstrap.ensureVolume env vols =
        (⟨env, [(labelEnvironment, env), (labelVolume, env)]⟩,
         [Op.volumeCreate env [(labelEnvironment, env), (labelVolume, env)]])) ∧
    ((∃ v ∈ vols, v.name = env) →
      ∃ v ∈ vols, v.name = env ∧ Bootstrap.ensureVolume env vols = (v, [])) := by
  refine ⟨?_, ?_, ?_, ?_⟩
  · intro h
    have hsel : Bootstrap.selectNetwork env networks = (false, "") := by
      unfold Bootstrap.selectNetwork
      exact Bootstrap.foldl_select_of_no_match
        (fun (n : String × String) => n.1) (fun (n : String × String) => n.2)
        env networks (false, "") h
    simp [Bootstrap.ensureNetwork, hsel]
  · intro h
    obtain ⟨n, hn, hkey, hfold⟩ :=
      Bootstrap.foldl_select_of_match
        (fun (n : String × String) => n.1) (fun (n : String × String) => n.2)
        env networks (false, "") h
    refine ⟨n, hn, hkey, ?_⟩
    have hsel : Bootstrap.selectNetwork env networks = (true, n.2) := by
      unfold Bootstrap.selectNetwork
      exact hfold
    simp [Bootstrap.ensureNetwork, hsel]
  · intro h
    have hsel : Bootstrap.selectVolume env vols = (false, zeroVolume) := by
      unfold Bootstrap.selectVolume
      exact Bootstrap.foldl_select_of_no_match
        (fun (v : VolumeRec) => v.name) (fun (v : VolumeRec) => v)
        env vols (false, zeroVolume) h
    simp [Bootstrap.ensureVolume, hsel]
  · intro h
    obtain ⟨v, hv, hkey, hfold⟩ :=
      Bootstrap.foldl_select_of_match
        (fun (v : VolumeRec) => v.name) (fun (v : VolumeRec) => v)
        env vols (false, zeroVolume) h
    refine ⟨v, hv, hkey, ?_⟩
    have hsel : Bootstrap.selectVolume env vols = (true, v) := by
      unfold Bootstrap.selectVolume
      exact hfold
    simp [Bootstrap.ensureVolume, hsel]

/-- C4 (witness): with fuzzy results {"dev-host", "dev"} for query "dev",
only the literal "dev" is selected and its id reused; a result list holding
only "dev-host" forces a create. -/
theorem Bootstrap.ensure_exact_match_witness :
    (∃ n ∈ [("dev-host", "n2"), ("dev", "n1")], n.1 = "dev" ∧
      Bootstrap.ensureNetwork "dev" [("dev-host", "n2"), ("dev", "n1")] "fresh" =
        (n.2, [])) ∧
    Bootstrap.ensureVolume "dev" [⟨"dev-host", []⟩] =
      (⟨"dev", [(labelEnvironment, "dev"), (labelVolume, "dev")]⟩,
       [Op.volumeCreate "dev" [(labelEnvironment, "dev"), (labelVolume, "dev")]]) :=
  ⟨(Bootstrap.ensure_exact_match "dev" [("dev-host", "n2"), ("dev", "n1")]
      [⟨"dev-host", []⟩] "fresh").2.1 (by decide),
   (Bootstrap.ensure_exact_match "dev" [("dev-host", "n2"), ("dev", "n1")]
      [⟨"dev-host", []⟩] "fresh").2.2.1 (by decide)⟩

/-- C5 (code bug): with the override NITRO_HTTP_PORT=8080, the resolved HTTP
port is 8080 and it is exposed on the container, but the host port published
to 127.0.0.1 is the hard-coded literal "80", not the resolved 8080 — the
published host port does not equal the resolved port number. -/
theorem Bootstrap.proxy_published_port_hardcoded :
    Bootstrap.resolvePorts "8080" "" "" "" = Except.ok (8080, 443, 5000, 9003) ∧
    Bootstrap.proxyCreateConfig "8080" "" "" "" =
      Except.ok ([8080, 443, 5000, 9003],
        [(8080, "127.0.0.1", "80"), (443, "127.0.0.1", "443"),
         (5000, "127.0.0.1", "5000"), (9003, "127.0.0.1", "9003")]) := by
  decide

/-- C6 (code bug): a non-numeric NITRO_HTTP_PORT does fail resolution, but
for the HTTPS, API and XDEBUG roles the parse error is discarded (assigned
to the blank identifier, with the stale previous error checked instead), so
a non-numeric override yields the zero port value 0 and the bootstrap
proceeds to produce a container-create configuration instead of failing. -/
theorem Bootstrap.proxy_invalid_override_swallowed :
    (Bootstrap.natNewPort "abc").isOk = false ∧
    (Bootstrap.resolvePorts "abc" "" "" "").isOk = false ∧
    Bootstrap.resolvePorts "" "abc" "" "" = Except.ok (80, 0, 5000, 9003) ∧
    Bootstrap.resolvePorts "" "" "abc" "" = Except.ok (80, 443, 0, 9003) ∧
    Bootstrap.resolvePorts "" "" "" "abc" = Except.ok (80, 443, 5000, 0) ∧
    (Bootstrap.proxyCreateConfig "" "abc" "" "").isOk = true := by
  decide

namespace Composer

/-- Whether `pat` is a prefix of `l` (helper for `strings.Contains`). -/
def hasPre : List Char → List Char → Bool
  | [], _ => true
  | _ :: _, [] => false
  | p :: ps, c :: cs => p == c && hasPre ps cs

/-- `strings.Contains`: whether `pat` occurs contiguously in `l`. -/
def hasSub (pat : List Char) : List Char → Bool
  | [] => pat.isEmpty
  | c :: cs => hasPre pat (c :: cs) || hasSub pat cs

/-- `strings.Split(s, "=")` on character lists. -/
def splitOnChar (c : Char) : List Char → List (List Char)
  | [] => [[]]
  | x :: xs =>
    let r := splitOnChar c xs
    if x == c then [] :: r
    else
      match r with
      | [] => [[x]]
      | h :: t => (x :: h) :: t

/-- The argument-scanning loop of the composer command: strip the
`--composer-version` flag (either `--composer-version=X` or the two-token
form, whose value token is read but still appended to the remaining
arguments, as in the source) and collect the remaining arguments. -/
def parseComposerArgs (args : List String) : List String × String :=
  args.enum.foldl
    (fun (acc : List String × String) (p : Nat × String) =>
      if hasSub ("--composer-version=" : String).data p.2.data then
        (acc.1, ⟨(splitOnChar '=' p.2.data).getLastD []⟩)
      else if p.2 == "--composer-version" then
        (acc.1, args.getD (p.1 + 1) "")
      else (acc.1 ++ [p.2], acc.2))
    ([], "")

/-- The labelled cache-volume query: volumes labelled with type `composer`
and the working path. -/
def volumesMatching (vols : List VolumeRec) (path : String) : List VolumeRec :=
  vols.filter fun v =>
    v.labels.lookup labelType == some "composer" &&
      v.labels.lookup labelPath == some path

/-- Modelled from the spec: `pkg/composer.CreateContainer` is not among the
provided sources.  Per spec §4.6 it creates a disposable container from the
tool image with the caller-supplied command line, identity labels, the
working-directory mount and the cache-volume mount, and returns the new
container.  The recorded mount source is the cache volume's name. -/
def CreateContainer (st : DockerState) (image : String)
    (lbls : List (String × String)) (volumeName : String) :
    DockerState × List Op × Nat :=
  let cid := st.nextId
  ({ st with
      nextId := st.nextId + 1,
      containers := st.containers ++
        [⟨cid, image, [], volumeName, [], lbls, "", "created"⟩] },
   [Op.containerCreate cid image volumeName], cid)

/-- The image/volume/container part of the composer command (everything the
source runs after the composer.json check has passed): pull the tool image
if absent, reuse or create the labelled cache volume (zero and one matches
are the only handled result counts), create/attach/start the disposable
container, stream its output (`streamErr` says whether `stdcopy.StdCopy`
fails), and remove the container on normal completion. -/
def runBody (sep : Char) (args : List String) (path : String)
    (streamErr : Option String) (st : DockerState) : RunResult :=
  let pa := parseComposerArgs args
  let version := if pa.2 == "" then "2" else pa.2
  let image := "docker.io/library/composer:" ++ version
  let pullOps : List Op :=
    if st.images.contains image then [] else [Op.imagePull image]
  let vols := volumesMatching st.volumes path
  let volumeName := name sep path version
  let volLabels : List (String × String) :=
    [(labelType, "composer"), (labelPath, path)]
  let volStep : VolumeRec × List Op × DockerState :=
    match vols with
    | [v] => (v, [], st)
    | [] =>
      (⟨volumeName, volLabels⟩, [Op.volumeCreate volumeName volLabels],
       { st with volumes := st.volumes ++ [⟨volumeName, volLabels⟩] })
    | _ => (zeroVolume, [], st)
  let pathVolume := volStep.1
  let created := CreateContainer volStep.2.2 image
    [(labelNitro, "true"), (labelType, "composer"), (labelPath, path)]
    pathVolume.name
  let cid := created.2.2
  let st3 := startContainer cid created.1
  let preTrace := [Op.imageList] ++ pullOps ++ [Op.volumeList] ++ volStep.2.1 ++
    created.2.1 ++ [Op.containerAttach cid, Op.containerStart cid]
  match streamErr with
  | some e =>
    { state := st3, trace := preTrace,
      result := Except.error ("unable to copy the output of the container logs, " ++ e) }
  | none =>
    { state := removeContainer cid st3,
      trace := preTrace ++ [Op.containerRemove cid],
      result := Except.ok cid }

/-- The composer command body (`RunE` of the composer command): unless the
first remaining argument is `create-project`, require a composer.json in the
working directory before issuing any runtime call; then run `runBody`. -/
def runE (sep : Char) (args : List String) (path : String)
    (hasComposerJson : Bool) (streamErr : Option String) (st : DockerState) :
    RunResult :=
  let pa := parseComposerArgs args
  let action := pa.1.headD ""
  if action != "create-project" && !hasComposerJson then
    { state := st, trace := [],
      result := Except.error ("unable to find file " ++ path ++ "/composer.json") }
  else runBody sep args path streamErr st

end Composer

namespace Composer

/-- When the first remaining argument is `create-project` or a composer.json
is present, the composer command proceeds past the file check. -/
theorem runE_of_reach (sep : Char) (args : List String) (path : String)
    (hasComposerJson : Bool) (streamErr : Option String) (st : DockerState)
    (hreach : (parseComposerArgs args).1.headD "" = "create-project" ∨
      hasComposerJson = true) :
    runE sep args path hasComposerJson streamErr st =
      runBody sep args path streamErr st := by
  have hcond : (((parseComposerArgs args).1.headD "" != "create-project") &&
      !hasComposerJson) = false := by
    rcases hreach with h | h
    · have h' : (parseComposerArgs args).1.head?.getD "" = "create-project" := by
        simpa using h
      simp [h']
    · simp [h]
  simp only [runE, hcond, Bool.false_eq_true, if_false]

/-- A normally completing `runBody` returns the created container's id and
removes that container. -/
theorem runBody_removes (sep : Char) (args : List String) (path : String)
    (st : DockerState) :
    ∃ cid, (runBody sep args path none st).result = Except.ok cid ∧
      Op.containerRemove cid ∈ (runBody sep args path none st).trace := by
  refine ⟨st.nextId, ?_⟩
  unfold runBody CreateContainer
  rcases hv : volumesMatching st.volumes path with _ | ⟨v, _ | ⟨w, rest⟩⟩ <;>
    by_cases hi :
      st.images.contains
        ("docker.io/library/composer:" ++
          (if (parseComposerArgs args).2 == "" then "2" else (parseComposerArgs args).2)) <;>
    simp [hv, hi]

/-- A `runBody` whose output streaming fails returns an error and never
issues a container-remove call. -/
theorem runBody_stream_fail (sep : Char) (args : List String) (path : String)
    (e : String) (st : DockerState) :
    (∃ msg, (runBody sep args path (some e) st).result = Except.error msg) ∧
    ∀ i, Op.containerRemove i ∉ (runBody sep args path (some e) st).trace := by
  unfold runBody CreateContainer
  rcases hv : volumesMatching st.volumes path with _ | ⟨v, _ | ⟨w, rest⟩⟩ <;>
    by_cases hi :
      st.images.contains
        ("docker.io/library/composer:" ++
          (if (parseComposerArgs args).2 == "" then "2" else (parseComposerArgs args).2)) <;>
    simp [hv, hi]

end Composer

/-- C8: for every composer task run that reaches container creation, if
output streaming succeeds the run returns the created container's id and the
container is removed; if streaming fails after the container is started, the
run returns an error and no container-remove call is ever issued. -/
theorem Composer.run_container_removal (sep : Char) (args : List String)
    (path : String) (hasComposerJson : Bool) (streamErr : Option String)
    (st : DockerState)
    (hreach : (Composer.parseComposerArgs args).1.headD "" = "create-project" ∨
      hasComposerJson = true) :
    (streamErr = none →
      ∃ cid,
        (Composer.runE sep args path hasComposerJson streamErr st).result =
          Except.ok cid ∧
        Op.containerRemove cid ∈
          (Composer.runE sep args path hasComposerJson streamErr st).trace) ∧
    (∀ e, streamErr = some e →
      (∃ msg,
        (Composer.runE sep args path hasComposerJson streamErr st).result =
          Except.error msg) ∧
      ∀ i, Op.containerRemove i ∉
        (Composer.runE sep args path hasComposerJson streamErr st).trace) := by
  have hg := Composer.runE_of_reach sep args path hasComposerJson streamErr st hreach
  constructor
  · intro h
    subst h
    rw [hg]
    exact Composer.runBody_removes sep args path st
  · intro e h
    subst h
    rw [hg]
    exact Composer.runBody_stream_fail sep args path e st

/-- C8 (witness): a concrete `composer install` run from an empty runtime
with a composer.json present. -/
theorem Composer.run_container_removal_witness :
    ∃ cid,
      (Composer.runE '/' ["install"] "/p" true none ⟨[], [], [], 0⟩).result =
        Except.ok cid ∧
      Op.containerRemove cid ∈
        (Composer.runE '/' ["install"] "/p" true none ⟨[], [], [], 0⟩).trace :=
  (Composer.run_container_removal '/' ["install"] "/p" true none ⟨[], [], [], 0⟩
    (Or.inr rfl)).1 rfl

/-- C9: a composer invocation whose first command argument is not
`create-project`, run in a directory without a composer.json, returns an
error with an empty runtime trace — no image list, pull, volume or container
call is issued. -/
theorem Composer.missing_composer_json (sep : Char) (args : List String)
    (path : String) (streamErr : Option String) (st : DockerState)
    (hact : (Composer.parseComposerArgs args).1.headD "" ≠ "create-project") :
    (∃ msg, (Composer.runE sep args path false streamErr st).result =
      Except.error msg) ∧
    (Composer.runE sep args path false streamErr st).trace = [] := by
  have hcond : (((Composer.parseComposerArgs args).1.headD "" != "create-project") &&
      !false) = true := by
    simp only [Bool.not_false, Bool.and_true, bne_iff_ne, ne_eq]
    exact hact
  simp only [Composer.runE, hcond, if_true]
  exact ⟨⟨_, rfl⟩, trivial⟩

/-- C9 (witness): `composer install` without a composer.json. -/
theorem Composer.missing_composer_json_witness :
    (∃ msg, (Composer.runE '/' ["install"] "/p" false none ⟨[], [], [], 0⟩).result =
      Except.error msg) ∧
    (Composer.runE '/' ["install"] "/p" false none ⟨[], [], [], 0⟩).trace = [] :=
  Composer.missing_composer_json '/' ["install"] "/p" none ⟨[], [], [], 0⟩ (by decide)

/-- C10: when the labelled cache-volume query returns two or more volumes,
the composer command neither reuses nor creates a volume (only result counts
zero and one are handled): no volume-create call appears in the trace, and
the subsequent container is created referencing the zero-valued volume
(empty mount-source name) rather than failing. -/
theorem Composer.multi_volume_match_ignored (sep : Char) (args : List String)
    (path : String) (hasComposerJson : Bool) (st : DockerState)
    (hreach : (Composer.parseComposerArgs args).1.headD "" = "create-project" ∨
      hasComposerJson = true)
    (v₁ v₂ : VolumeRec) (rest : List VolumeRec)
    (hv : Composer.volumesMatching st.volumes path = v₁ :: v₂ :: rest) :
    (∀ n lbls, Op.volumeCreate n lbls ∉
      (Composer.runE sep args path hasComposerJson none st).trace) ∧
    Op.containerCreate st.nextId
        ("docker.io/library/composer:" ++
          (if (Composer.parseComposerArgs args).2 == "" then "2"
           else (Composer.parseComposerArgs args).2)) "" ∈
      (Composer.runE sep args path hasComposerJson none st).trace ∧
    (Composer.runE sep args path hasComposerJson none st).result =
      Except.ok st.nextId := by
  rw [Composer.runE_of_reach sep args path hasComposerJson none st hreach]
  unfold Composer.runBody Composer.CreateContainer
  by_cases hi :
    st.images.contains
      ("docker.io/library/composer:" ++
        (if (Composer.parseComposerArgs args).2 == "" then "2"
         else (Composer.parseComposerArgs args).2)) <;>
    simp [hv, hi, zeroVolume]

/-- C10 (witness): two cache volumes carry the composer label set for the
same path; the run creates no volume and the container mounts the
zero-valued volume. -/
theorem Composer.multi_volume_match_ignored_witness :
    (∀ n lbls, Op.volumeCreate n lbls ∉
      (Composer.runE '/' ["install"] "/p" true none
        ⟨[], [⟨"v1", [(labelType, "composer"), (labelPath, "/p")]⟩,
              ⟨"v2", [(labelType, "composer"), (labelPath, "/p")]⟩], [], 0⟩).trace) ∧
    Op.containerCreate 0 "docker.io/library/composer:2" "" ∈
      (Composer.runE '/' ["install"] "/p" true none
        ⟨[], [⟨"v1", [(labelType, "composer"), (labelPath, "/p")]⟩,
              ⟨"v2", [(labelType, "composer"), (labelPath, "/p")]⟩], [], 0⟩).trace ∧
    (Composer.runE '/' ["install"] "/p" true none
      ⟨[], [⟨"v1", [(labelType, "composer"), (labelPath, "/p")]⟩,
            ⟨"v2", [(labelType, "composer"), (labelPath, "/p")]⟩], [], 0⟩).result =
      Except.ok 0 :=
  Composer.multi_volume_match_ignored '/' ["install"] "/p" true
    ⟨[], [⟨"v1", [(labelType, "composer"), (labelPath, "/p")]⟩,
          ⟨"v2", [(labelType, "composer"), (labelPath, "/p")]⟩], [], 0⟩
    (Or.inr rfl)
    ⟨"v1", [(labelType, "composer"), (labelPath, "/p")]⟩
    ⟨"v2", [(labelType, "composer"), (labelPath, "/p")]⟩ [] (by decide)

namespace SiteContainer

/-- A site's desired configuration (spec §3; the fields `StartOrCreate` and
`create` read from `config.Site`). -/
structure Site where
  hostname : String
  aliases : List String
  version : String
  path : String
  dir : String
  envVars : List String
  deriving DecidableEq, Repr

/-- Modelled from the spec: `config.Site.GetAbsPath` is not among the
provided sources; per spec §3 a site carries an absolute local working path,
which the accessor returns. -/
def Site.getAbsPath (s : Site) (home : String) : String := s.path

/-- Modelled from the spec: `config.Site.AsEnvs` is not among the provided
sources; per spec §4.4 it builds the environment-variable list from the site
configuration plus a fixed variable exposing the host machine's reachable
address. -/
def Site.asEnvs (s : Site) (addr : String) : List String :=
  s.envVars ++ ["NITRO_HOST_ADDRESS=" ++ addr]

/-- `NginxImage` with the site's version substituted
(`docker.io/craftcms/nginx:%s-dev`). -/
def NginxImage (version : String) : String :=
  "docker.io/craftcms/nginx:" ++ version ++ "-dev"

/-- The extra-host entries built by `create`: the hostname and every alias
mapped to the loopback address. -/
def extraHostsFor (site : Site) : List String :=
  (site.hostname ++ ":127.0.0.1") :: site.aliases.map (fun a => a ++ ":127.0.0.1")

/-- Order-independent equality of two string collections (the mapping
comparison of the drift detector). -/
def stringSetEq (l₁ l₂ : List String) : Bool :=
  l₁.all (l₂.contains ·) && l₂.all (l₁.contains ·)

/-- Modelled from the spec: `match.Site` (the Drift Detector) is not among
the provided sources.  Per spec §4.3 it compares the desired site spec
against the observed container over image reference (exact string equality),
bind-mount source path (exact string equality), environment-variable set and
derived extra-host entries (both order-independent). -/
def matchSite (home : String) (site : Site) (c : ContainerRecord) : Bool :=
  c.image == NginxImage site.version &&
  c.mountSource == site.getAbsPath home &&
  stringSetEq c.env (site.asEnvs "host.docker.internal") &&
  stringSetEq c.extraHosts (extraHostsFor site)

/-- The container query of `StartOrCreate`: all containers labelled
`host=<site.Hostname>`. -/
def filterSite (cs : List ContainerRecord) (site : Site) : List ContainerRecord :=
  cs.filter fun c => c.labels.lookup labelHost == some site.hostname

/-- The container record produced by `create`'s ContainerCreate call. -/
def siteRecord (home : String) (site : Site) (cid : Nat) (state : String) :
    ContainerRecord :=
  ⟨cid, NginxImage site.version, site.asEnvs "host.docker.internal",
   site.getAbsPath home, extraHostsFor site,
   [(labelNitro, "true"), (labelHost, site.hostname)], site.hostname, state⟩

/-- The entries of `create`'s post-installation `commands` map, in insertion
order (the map is populated only when the document root differs from the
image default "web"). -/
def createCommands (site : Site) : List (String × List String) :=
  if site.dir ≠ "web" then
    [("copy-nginx-file",
      ["cp", "/tmp/default.conf", "/etc/nginx/conf.d/default.conf"]),
     ("set-nginx-permissions",
      ["chmod", "0644", "/etc/nginx/conf.d/default.conf"])]
  else []

/-- The runtime calls of one iteration of `create`'s command loop: exec
create, exec attach (with output copy), exec start, the completion poll, and
the redundant container start. -/
def execOps (cid : Nat) (cmd : List String) : List Op :=
  [Op.execCreate cid cmd, Op.execAttach, Op.execStart, Op.execInspect,
   Op.containerStart cid]

/-- `create`: pull the image, create the container (bind-mounting the site
path, with identity labels, named by hostname), start it, and when the
document root is non-default copy the rendered virtual-host file in and run
the provisioning commands.  `iter` is the iteration order of the `commands`
map (`for _, c := range commands`), which Go leaves unspecified; callers
constrain it to a permutation of `createCommands site`. -/
def create (home networkID : String) (site : Site)
    (iter : List (String × List String)) (st : DockerState) : RunResult :=
  let image := NginxImage site.version
  let path := site.getAbsPath home
  let cid := st.nextId
  let stCreated : DockerState :=
    { st with
        nextId := st.nextId + 1,
        containers := st.containers ++ [siteRecord home site cid "created"] }
  let stStarted := startContainer cid stCreated
  let copyOps : List Op :=
    if site.dir ≠ "web" then [Op.copyToContainer cid] else []
  let loopTrace := iter.flatMap fun kv => execOps cid kv.2
  let stFinal := iter.foldl (fun s _ => startContainer cid s) stStarted
  { state := stFinal,
    trace := [Op.imagePull image, Op.containerCreate cid image path,
      Op.containerStart cid] ++ copyOps ++ loopTrace,
    result := Except.ok cid }

/-- `StartOrCreate`: list containers by the site's hostname label; none →
`create`; otherwise inspect the first match and run the drift detector —
match → return the existing id unchanged, mismatch → stop, remove, then
`create`. -/
def StartOrCreate (home networkID : String) (site : Site)
    (iter : List (String × List String)) (st : DockerState) : RunResult :=
  match filterSite st.containers site with
  | [] =>
    let r := create home networkID site iter st
    { r with trace := Op.containerList :: r.trace }
  | c :: _ =>
    if matchSite home site c then
      { state := st, trace := [Op.containerList, Op.containerInspect c.id],
        result := Except.ok c.id }
    else
      let st2 := removeContainer c.id (stopContainer c.id st)
      let r := create home networkID site iter st2
      { r with
          trace := [Op.containerList, Op.containerInspect c.id,
            Op.containerStop c.id, Op.containerRemove c.id] ++ r.trace }

end SiteContainer

/-- C3 (code bug): the two provisioning commands are stored in a Go `map`
and run by iterating over it, and Go's map iteration order is unspecified —
the order with `chmod` before `cp` is a permutation of the map's entries,
hence an admissible execution, and in it the exec sessions run the reverse
of the claimed strict order.  (The keys "copy-nginx-file" /
"set-nginx-permissions" and the spec's "strict order" show the intended
order; an ordered slice, not a map, would enforce it.) -/
theorem SiteContainer.provisioning_order_not_enforced :
    List.Perm
      [("set-nginx-permissions",
        ["chmod", "0644", "/etc/nginx/conf.d/default.conf"]),
       ("copy-nginx-file",
        ["cp", "/tmp/default.conf", "/etc/nginx/conf.d/default.conf"])]
      (SiteContainer.createCommands
        ⟨"example.test", [], "7.4", "/home/u/example", "public", []⟩) ∧
    execCmds
        (SiteContainer.create "/home/u" "netid"
          ⟨"example.test", [], "7.4", "/home/u/example", "public", []⟩
          [("set-nginx-permissions",
            ["chmod", "0644", "/etc/nginx/conf.d/default.conf"]),
           ("copy-nginx-file",
            ["cp", "/tmp/default.conf", "/etc/nginx/conf.d/default.conf"])]
          ⟨[], [], [], 0⟩).trace =
      [["chmod", "0644", "/etc/nginx/conf.d/default.conf"],
       ["cp", "/tmp/default.conf", "/etc/nginx/conf.d/default.conf"]] := by
  decide

namespace SiteContainer

theorem stringSetEq_refl (l : List String) : stringSetEq l l = true := by
  simp only [stringSetEq, Bool.and_eq_true, List.all_eq_true]
  constructor <;> intro x hx <;> simpa using hx

/-- The drift detector accepts the container record `create` produces for the
same site (the create/inspect round trip). -/
theorem matchSite_siteRecord (home : String) (site : Site) (cid : Nat)
    (state : String) :
    matchSite home site (siteRecord home site cid state) = true := by
  simp [matchSite, siteRecord, stringSetEq_refl]

theorem lookup_siteRecord (home : String) (site : Site) (cid : Nat)
    (state : String) :
    (siteRecord home site cid state).labels.lookup labelHost =
      some site.hostname := by
  have h : (labelHost == labelNitro) = false := by decide
  simp [siteRecord, List.lookup_cons, h]

theorem filterSite_append (cs₁ cs₂ : List ContainerRecord) (site : Site) :
    filterSite (cs₁ ++ cs₂) site = filterSite cs₁ site ++ filterSite cs₂ site :=
  List.filter_append cs₁ cs₂

theorem filterSite_siteRecord (home : String) (site : Site) (cid : Nat)
    (state : String) :
    filterSite [siteRecord home site cid state] site =
      [siteRecord home site cid state] := by
  simp [filterSite, lookup_siteRecord]

theorem filterSite_map_preserve (g : ContainerRecord → ContainerRecord)
    (hg : ∀ c, (g c).labels = c.labels) (cs : List ContainerRecord)
    (site : Site) :
    filterSite (cs.map g) site = (filterSite cs site).map g := by
  unfold filterSite
  rw [List.filter_map]
  congr 1
  apply List.filter_congr
  intro c _
  simp [Function.comp, hg c]

theorem filterSite_filter (q : ContainerRecord → Bool)
    (cs : List ContainerRecord) (site : Site) :
    filterSite (cs.filter q) site = (filterSite cs site).filter q := by
  unfold filterSite
  rw [List.filter_filter, List.filter_filter]
  apply List.filter_congr
  intro c _
  exact Bool.and_comm _ _

theorem labels_startMap (cid : Nat) :
    ∀ c : ContainerRecord,
      ((fun c => if c.id = cid then { c with state := "running" } else c) c).labels =
        c.labels := by
  intro c
  by_cases h : c.id = cid <;> simp [h]

theorem labels_stopMap (cid : Nat) :
    ∀ c : ContainerRecord,
      ((fun c => if c.id = cid then { c with state := "exited" } else c) c).labels =
        c.labels := by
  intro c
  by_cases h : c.id = cid <;> simp [h]

theorem startContainer_idem (cid : Nat) (st : DockerState) :
    startContainer cid (startContainer cid st) = startContainer cid st := by
  unfold startContainer
  simp only [List.map_map]
  congr 1
  apply List.map_congr_left
  intro c _
  by_cases h : c.id = cid <;> simp [h]

theorem foldl_startContainer (cid : Nat) :
    ∀ (iter : List (String × List String)) (st : DockerState),
      iter.foldl (fun s _ => startContainer cid s) (startContainer cid st) =
        startContainer cid st := by
  intro iter
  induction iter with
  | nil => intro st; rfl
  | cons x t ih =>
    intro st
    rw [List.foldl_cons, startContainer_idem]
    exact ih st

theorem create_result (home networkID : String) (site : Site)
    (iter : List (String × List String)) (st : DockerState) :
    (create home networkID site iter st).result = Except.ok st.nextId := rfl

theorem create_state (home networkID : String) (site : Site)
    (iter : List (String × List String)) (st : DockerState) :
    (create home networkID site iter st).state =
      startContainer st.nextId
        { st with
            nextId := st.nextId + 1,
            containers := st.containers ++ [siteRecord home site st.nextId "created"] } :=
  foldl_startContainer st.nextId iter _

end SiteContainer

namespace SiteContainer

/-- After a `create` from a state with no container for the site, the
hostname-label query returns exactly the created (running) container. -/
theorem filterSite_create_state (home networkID : String) (site : Site)
    (iter : List (String × List String)) (st : DockerState)
    (hnone : filterSite st.containers site = []) :
    filterSite (create home networkID site iter st).state.containers site =
      [siteRecord home site st.nextId "running"] := by
  rw [create_state]
  unfold startContainer
  rw [filterSite_map_preserve _ (labels_startMap st.nextId), filterSite_append,
    hnone, filterSite_siteRecord]
  simp [siteRecord]

/-- Stopping then removing the single matching container leaves the
hostname-label query empty. -/
theorem filterSite_after_remove (site : Site) (st : DockerState)
    (c : ContainerRecord)
    (hone : filterSite st.containers site = [c]) :
    filterSite (removeContainer c.id (stopContainer c.id st)).containers site = [] := by
  unfold removeContainer stopContainer
  rw [filterSite_filter, filterSite_map_preserve _ (labels_stopMap c.id), hone]
  simp

theorem mutatingOps_append (l₁ l₂ : List Op) :
    mutatingOps (l₁ ++ l₂) = mutatingOps l₁ ++ mutatingOps l₂ :=
  List.filter_append l₁ l₂

/-- The provisioning loop issues no container create/stop/remove calls. -/
theorem mutatingOps_execLoop (cid : Nat) (iter : List (String × List String)) :
    mutatingOps (iter.flatMap fun kv => execOps cid kv.2) = [] := by
  unfold mutatingOps
  rw [List.filter_flatMap]
  induction iter with
  | nil => rfl
  | cons x t ih => rw [List.flatMap_cons, ih]; rfl

/-- The only container create/stop/remove call `create` issues is the single
container-create. -/
theorem mutatingOps_create (home networkID : String) (site : Site)
    (iter : List (String × List String)) (st : DockerState) :
    mutatingOps (create home networkID site iter st).trace =
      [Op.containerCreate st.nextId (NginxImage site.version)
        (site.getAbsPath home)] := by
  unfold create
  rw [mutatingOps_append, mutatingOps_append, mutatingOps_execLoop]
  by_cases h : site.dir ≠ "web" <;> simp [h, mutatingOps]

end SiteContainer

/-- C2: when the hostname query finds an existing container and the drift
detector judges it drifted, `StartOrCreate` issues exactly stop, then
remove, then create (and no other container create/stop/remove calls),
returns the newly created container's id, and that id differs from the
removed predecessor's id. -/
theorem SiteContainer.StartOrCreate_rebuild (home networkID : String)
    (site : SiteContainer.Site) (iter : List (String × List String))
    (st : DockerState)
    (hperm : List.Perm iter (SiteContainer.createCommands site))
    (c : ContainerRecord) (rest : List ContainerRecord)
    (hfound : SiteContainer.filterSite st.containers site = c :: rest)
    (hdrift : SiteContainer.matchSite home site c = false)
    (hwf : ∀ x ∈ st.containers, x.id < st.nextId) :
    mutatingOps (SiteContainer.StartOrCreate home networkID site iter st).trace =
      [Op.containerStop c.id, Op.containerRemove c.id,
       Op.containerCreate st.nextId (SiteContainer.NginxImage site.version)
         (site.getAbsPath home)] ∧
    (SiteContainer.StartOrCreate home networkID site iter st).result =
      Except.ok st.nextId ∧
    st.nextId ≠ c.id := by
  have hcin : c ∈ st.containers := by
    have hmem : c ∈ SiteContainer.filterSite st.containers site := by
      rw [hfound]
      exact List.mem_cons_self c rest
    exact (List.mem_filter.mp hmem).1
  have hlt : c.id < st.nextId := hwf c hcin
  simp only [SiteContainer.StartOrCreate, hfound, hdrift, Bool.false_eq_true,
    if_false]
  refine ⟨?_, ?_, ?_⟩
  · rw [SiteContainer.mutatingOps_append, SiteContainer.mutatingOps_create]
    rfl
  · rfl
  · omega

/-- C2 (witness): a site whose existing container runs an outdated image is
stopped, removed and recreated with a fresh id. -/
theorem SiteContainer.StartOrCreate_rebuild_witness :
    mutatingOps
        (SiteContainer.StartOrCreate "/home/u" "netid"
          ⟨"a.test", [], "7.4", "/home/u/a", "web", []⟩ []
          ⟨[⟨0, "old-image", [], "/home/u/a", [],
             [(labelNitro, "true"), (labelHost, "a.test")], "a.test",
             "running"⟩], [], [], 1⟩).trace =
      [Op.containerStop 0, Op.containerRemove 0,
       Op.containerCreate 1 "docker.io/craftcms/nginx:7.4-dev" "/home/u/a"] ∧
    (SiteContainer.StartOrCreate "/home/u" "netid"
        ⟨"a.test", [], "7.4", "/home/u/a", "web", []⟩ []
        ⟨[⟨0, "old-image", [], "/home/u/a", [],
           [(labelNitro, "true"), (labelHost, "a.test")], "a.test",
           "running"⟩], [], [], 1⟩).result = Except.ok 1 ∧
    (1 : Nat) ≠ 0 :=
  SiteContainer.StartOrCreate_rebuild "/home/u" "netid"
    ⟨"a.test", [], "7.4", "/home/u/a", "web", []⟩ []
    ⟨[⟨0, "old-image", [], "/home/u/a", [],
       [(labelNitro, "true"), (labelHost, "a.test")], "a.test", "running"⟩],
     [], [], 1⟩
    (by decide)
    ⟨0, "old-image", [], "/home/u/a", [],
     [(labelNitro, "true"), (labelHost, "a.test")], "a.test", "running"⟩ []
    (by decide) (by decide) (by decide)

namespace SiteContainer

/-- `StartOrCreate` on a state with no matching container is exactly a
`create` preceded by the container-list query. -/
theorem StartOrCreate_nomatch (home networkID : String) (site : Site)
    (iter : List (String × List String)) (st : DockerState)
    (hnone : filterSite st.containers site = []) :
    StartOrCreate home networkID site iter st =
      { state := (create home networkID site iter st).state,
        trace := Op.containerList :: (create home networkID site iter st).trace,
        result := Except.ok st.nextId } := by
  simp only [StartOrCreate, hnone]
  rfl

/-- `StartOrCreate` on a state whose first matching container passes the
drift detector returns that container's id with no state change. -/
theorem StartOrCreate_skip (home networkID : String) (site : Site)
    (iter : List (String × List String)) (st : DockerState)
    (c : ContainerRecord) (rest : List ContainerRecord)
    (hfound : filterSite st.containers site = c :: rest)
    (hmatch : matchSite home site c = true) :
    StartOrCreate home networkID site iter st =
      { state := st, trace := [Op.containerList, Op.containerInspect c.id],
        result := Except.ok c.id } := by
  simp only [StartOrCreate, hfound]
  rw [if_pos hmatch]

/-- `StartOrCreate` on a state whose first matching container fails the
drift detector stops and removes it and then runs `create`. -/
theorem StartOrCreate_rebuild_eq (home networkID : String) (site : Site)
    (iter : List (String × List String)) (st : DockerState)
    (c : ContainerRecord) (rest : List ContainerRecord)
    (hfound : filterSite st.containers site = c :: rest)
    (hdrift : matchSite home site c = false) :
    StartOrCreate home networkID site iter st =
      { state := (create home networkID site iter
          (removeContainer c.id (stopContainer c.id st))).state,
        trace := [Op.containerList, Op.containerInspect c.id,
            Op.containerStop c.id, Op.containerRemove c.id] ++
          (create home networkID site iter
            (removeContainer c.id (stopContainer c.id st))).trace,
        result := Except.ok st.nextId } := by
  simp only [StartOrCreate, hfound]
  rw [if_neg (by simp [hdrift])]
  rfl

end SiteContainer

/-- C1: two consecutive `StartOrCreate` calls with an unchanged desired site
spec and no external mutation of the runtime return the same container id,
and the second call issues zero container create, stop or remove operations.
`hinv` is the spec's invariant of at most one container per site hostname;
`iter₁`/`iter₂` are the (unspecified) Go map iteration orders of the two
calls' provisioning loops. -/
theorem SiteContainer.StartOrCreate_idempotent (home networkID : String)
    (site : SiteContainer.Site) (iter₁ iter₂ : List (String × List String))
    (st : DockerState)
    (hperm₁ : List.Perm iter₁ (SiteContainer.createCommands site))
    (hperm₂ : List.Perm iter₂ (SiteContainer.createCommands site))
    (hinv : (SiteContainer.filterSite st.containers site).length ≤ 1)
    (id₁ : Nat)
    (hfst : (SiteContainer.StartOrCreate home networkID site iter₁ st).result =
      Except.ok id₁) :
    (SiteContainer.StartOrCreate home networkID site iter₂
        (SiteContainer.StartOrCreate home networkID site iter₁ st).state).result =
      Except.ok id₁ ∧
    mutatingOps (SiteContainer.StartOrCreate home networkID site iter₂
        (SiteContainer.StartOrCreate home networkID site iter₁ st).state).trace =
      [] := by
  rcases hml : SiteContainer.filterSite st.containers site with _ | ⟨c, rest⟩
  · have h1 := SiteContainer.StartOrCreate_nomatch home networkID site iter₁ st hml
    have hid : st.nextId = id₁ := by
      rw [h1] at hfst
      simpa using hfst
    have hstate : (SiteContainer.StartOrCreate home networkID site iter₁ st).state =
        (SiteContainer.create home networkID site iter₁ st).state := by
      rw [h1]
    have hf2 : SiteContainer.filterSite
        (SiteContainer.create home networkID site iter₁ st).state.containers site =
        [SiteContainer.siteRecord home site st.nextId "running"] :=
      SiteContainer.filterSite_create_state home networkID site iter₁ st hml
    have h2 := SiteContainer.StartOrCreate_skip home networkID site iter₂
      (SiteContainer.create home networkID site iter₁ st).state
      (SiteContainer.siteRecord home site st.nextId "running") [] hf2
      (SiteContainer.matchSite_siteRecord home site st.nextId "running")
    rw [hstate, h2]
    refine ⟨?_, rfl⟩
    rw [← hid]
    rfl
  · have hrest : rest = [] := by
      rw [hml] at hinv
      cases rest with
      | nil => rfl
      | cons y t => simp at hinv
    subst hrest
    by_cases hm : SiteContainer.matchSite home site c = true
    · have h1 := SiteContainer.StartOrCreate_skip home networkID site iter₁ st c []
        hml hm
      have hid : c.id = id₁ := by
        rw [h1] at hfst
        simpa using hfst
      have hstate : (SiteContainer.StartOrCreate home networkID site iter₁ st).state =
          st := by
        rw [h1]
      have h2 := SiteContainer.StartOrCreate_skip home networkID site iter₂ st c []
        hml hm
      rw [hstate, h2]
      refine ⟨?_, rfl⟩
      rw [← hid]
    · have hm' : SiteContainer.matchSite home site c = false := by
        cases hq : SiteContainer.matchSite home site c
        · rfl
        · exact absurd hq hm
      have h1 := SiteContainer.StartOrCreate_rebuild_eq home networkID site iter₁
        st c [] hml hm'
      have hid : st.nextId = id₁ := by
        rw [h1] at hfst
        simpa using hfst
      have hstate : (SiteContainer.StartOrCreate home networkID site iter₁ st).state =
          (SiteContainer.create home networkID site iter₁
            (removeContainer c.id (stopContainer c.id st))).state := by
        rw [h1]
      have hf2 : SiteContainer.filterSite
          (SiteContainer.create home networkID site iter₁
            (removeContainer c.id (stopContainer c.id st))).state.containers site =
          [SiteContainer.siteRecord home site st.nextId "running"] :=
        SiteContainer.filterSite_create_state home networkID site iter₁
          (removeContainer c.id (stopContainer c.id st))
          (SiteContainer.filterSite_after_remove site st c hml)
      have h2 := SiteContainer.StartOrCreate_skip home networkID site iter₂
        (SiteContainer.create home networkID site iter₁
          (removeContainer c.id (stopContainer c.id st))).state
        (SiteContainer.siteRecord home site st.nextId "running") [] hf2
        (SiteContainer.matchSite_siteRecord home site st.nextId "running")
      rw [hstate, h2]
      refine ⟨?_, rfl⟩
      rw [← hid]
      rfl

/-- C1 (witness): two consecutive reconciliations of a fresh site from an
empty runtime: the second returns the id created by the first and issues no
container create/stop/remove call. -/
theorem SiteContainer.StartOrCreate_idempotent_witness :
    (SiteContainer.StartOrCreate "/home/u" "netid"
        ⟨"a.test", [], "7.4", "/home/u/a", "web", []⟩ []
        (SiteContainer.StartOrCreate "/home/u" "netid"
          ⟨"a.test", [], "7.4", "/home/u/a", "web", []⟩ []
          ⟨[], [], [], 0⟩).state).result = Except.ok 0 ∧
    mutatingOps
        (SiteContainer.StartOrCreate "/home/u" "netid"
          ⟨"a.test", [], "7.4", "/home/u/a", "web", []⟩ []
          (SiteContainer.StartOrCreate "/home/u" "netid"
            ⟨"a.test", [], "7.4", "/home/u/a", "web", []⟩ []
            ⟨[], [], [], 0⟩).state).trace = [] :=
  SiteContainer.StartOrCreate_idempotent "/home/u" "netid"
    ⟨"a.test", [], "7.4", "/home/u/a", "web", []⟩ [] [] ⟨[], [], [], 0⟩
    (by decide) (by decide) (by decide) 0 (by decide)
